import Mathlib

/-!
# Node lifecycle manager of cluster-api-provider-docker (`docker/nodes.go`)

A shallow embedding of `Node.Create` and `Node.Delete`.

* A Go pointer `*nodes.Node` is an `Option nodes.Node` (`none` is `nil`); a Go
  `error` is an `Option Error` (`none` is `nil`).  A Go function returning
  `(*nodes.Node, error)` returns a pair of two independent options.
* The provisioning primitives (`actions.MachineActions` methods and the
  functions of package `actions`) and the role constants of package
  `constants` are declared outside the embedded file: they are parameters
  (`actions.Primitives`, `constants.Values`).  A primitive acts on an
  arbitrary world `W` by explicit state passing.
* Every primitive invoked by the manager is recorded, with its arguments, in
  the `calls` trace of the system state; every `log.Info` in the `logs`.
-/

namespace docker

/-- Go `[]byte`. -/
abbrev Bytes := List Nat

/-- Go `error` values as built by `github.com/pkg/errors`: `fundamental` is what
`errors.Errorf format args...` returns (format and arguments kept unrendered),
`withMessage cause msg` is what `errors.Wrap cause msg` returns. -/
inductive Error where
  | fundamental (format : String) (args : List String)
  | withMessage (cause : Error) (msg : String)
  deriving DecidableEq, Repr

/-- Go `errors.Errorf(format, args...)`. -/
def errors.Errorf (format : String) (args : List String) : Error :=
  Error.fundamental format args

/-- Go `errors.Wrap(err, message)`: `nil` for a `nil` error, otherwise the
error annotated with `message`. -/
def errors.Wrap (err : Option Error) (message : String) : Option Error :=
  match err with
  | none => none
  | some e => some (Error.withMessage e message)

/-- The kind type `nodes.Node`: a cluster member, identified by its name. -/
structure nodes.Node where
  name : String
  deriving DecidableEq, Repr

/-- One line written through a `logr.Logger`. -/
structure logr.Entry where
  names : List String
  msg : String
  keysAndValues : List String
  deriving DecidableEq, Repr

/-- Go `logr.Logger`: the names and key/value context it carries. -/
structure logr.Logger where
  names : List String
  values : List String
  deriving DecidableEq, Repr

/-- Go `Logger.WithName(name)`. -/
def logr.Logger.WithName (l : logr.Logger) (name : String) : logr.Logger :=
  { l with names := l.names ++ [name] }

/-- Go `*actions.MachineActions`: the receiver of the machine primitives. -/
structure actions.MachineActions where
  Logger : logr.Logger
  deriving DecidableEq, Repr

/-- A provider primitive invocation together with its arguments.  `E` is the
type of the fourth parameter of `CreateControlPlane`. -/
inductive Call (E : Type) where
  | CreateControlPlane (cluster machine version : String) (arg4 : Option E)
      (cloudConfig : Bytes)
  | GetLoadBalancerHostAndPort (allNodes : List nodes.Node)
  | GetKubeConfig (node : Option nodes.Node) (dest hostAddress : String) (hostPort : Int)
  | AddControlPlane (cluster machine version : String) (cloudConfig : Bytes)
  | AddWorker (cluster machine version : String) (cloudConfig : Bytes)
  | DeleteControlPlane (cluster machine : String)
  | DeleteWorker (cluster machine : String)
  deriving DecidableEq, Repr

/-- Recogniser of `CreateControlPlane` invocations. -/
def Call.isCreateControlPlane {E : Type} : Call E → Bool
  | Call.CreateControlPlane _ _ _ _ _ => true
  | _ => false

/-- Recogniser of `GetLoadBalancerHostAndPort` invocations. -/
def Call.isGetLoadBalancerHostAndPort {E : Type} : Call E → Bool
  | Call.GetLoadBalancerHostAndPort _ => true
  | _ => false

/-- Recogniser of `GetKubeConfig` invocations. -/
def Call.isGetKubeConfig {E : Type} : Call E → Bool
  | Call.GetKubeConfig _ _ _ _ => true
  | _ => false

/-- Recogniser of `AddControlPlane` invocations. -/
def Call.isAddControlPlane {E : Type} : Call E → Bool
  | Call.AddControlPlane _ _ _ _ => true
  | _ => false

/-- The role constants of `sigs.k8s.io/kind/pkg/cluster/constants`.  They are
declared outside the embedded sources; Go rejects a `switch` with two equal
constant cases, hence `distinct`. -/
structure constants.Values where
  ControlPlaneNodeRoleValue : String
  WorkerNodeRoleValue : String
  distinct : ControlPlaneNodeRoleValue ≠ WorkerNodeRoleValue

/-- The primitives of package `actions`, declared outside the embedded
sources.  Each one that touches the container runtime maps a world to a
result and a new world; `KubeConfigPath` only computes a path. -/
structure actions.Primitives (W E : Type) where
  CreateControlPlane : Option actions.MachineActions → String → String → String →
    Option E → Bytes → W → (Option nodes.Node × Option Error) × W
  AddControlPlane : Option actions.MachineActions → String → String → String →
    Bytes → W → (Option nodes.Node × Option Error) × W
  AddWorker : Option actions.MachineActions → String → String → String →
    Bytes → W → (Option nodes.Node × Option Error) × W
  DeleteControlPlane : Option actions.MachineActions → String → String → W → Option Error × W
  DeleteWorker : Option actions.MachineActions → String → String → W → Option Error × W
  KubeConfigPath : String → String
  GetLoadBalancerHostAndPort : List nodes.Node → W → (String × Int × Option Error) × W
  GetKubeConfig : Option nodes.Node → String → String → Int → W → Option Error × W

/-- The system a manager runs against: the provider world, the trace of
primitive invocations so far, and the log lines so far. -/
structure Sys (W E : Type) where
  world : W
  calls : List (Call E)
  logs : List logr.Entry

/-- Go `Logger.Info(msg, keysAndValues...)`. -/
def logr.Logger.Info {W E : Type} (l : logr.Logger) (msg : String)
    (keysAndValues : List String) (s : Sys W E) : Sys W E :=
  { s with logs := s.logs ++ [logr.Entry.mk l.names msg (l.values ++ keysAndValues)] }

/-- The invocations recorded between system state `s` and a later state `t`. -/
def Sys.callsSince {W E : Type} (s t : Sys W E) : List (Call E) :=
  t.calls.drop s.calls.length

/-- Invocation of `(*MachineActions).CreateControlPlane`. -/
def invoke.CreateControlPlane {W E : Type} (actions : actions.Primitives W E)
    (m : Option docker.actions.MachineActions) (cluster machine version : String)
    (arg4 : Option E) (cloudConfig : Bytes) (s : Sys W E) :
    (Option nodes.Node × Option Error) × Sys W E :=
  let r := actions.CreateControlPlane m cluster machine version arg4 cloudConfig s.world
  (r.1, { s with world := r.2,
                 calls := s.calls ++ [Call.CreateControlPlane cluster machine version arg4
                   cloudConfig] })

/-- Invocation of `(*MachineActions).AddControlPlane`. -/
def invoke.AddControlPlane {W E : Type} (actions : actions.Primitives W E)
    (m : Option docker.actions.MachineActions) (cluster machine version : String)
    (cloudConfig : Bytes) (s : Sys W E) : (Option nodes.Node × Option Error) × Sys W E :=
  let r := actions.AddControlPlane m cluster machine version cloudConfig s.world
  (r.1, { s with world := r.2,
                 calls := s.calls ++ [Call.AddControlPlane cluster machine version cloudConfig] })

/-- Invocation of `(*MachineActions).AddWorker`. -/
def invoke.AddWorker {W E : Type} (actions : actions.Primitives W E)
    (m : Option docker.actions.MachineActions) (cluster machine version : String)
    (cloudConfig : Bytes) (s : Sys W E) : (Option nodes.Node × Option Error) × Sys W E :=
  let r := actions.AddWorker m cluster machine version cloudConfig s.world
  (r.1, { s with world := r.2,
                 calls := s.calls ++ [Call.AddWorker cluster machine version cloudConfig] })

/-- Invocation of `(*MachineActions).DeleteControlPlane`. -/
def invoke.DeleteControlPlane {W E : Type} (actions : actions.Primitives W E)
    (m : Option docker.actions.MachineActions) (cluster machine : String) (s : Sys W E) :
    Option Error × Sys W E :=
  let r := actions.DeleteControlPlane m cluster machine s.world
  (r.1, { s with world := r.2, calls := s.calls ++ [Call.DeleteControlPlane cluster machine] })

/-- Invocation of `(*MachineActions).DeleteWorker`. -/
def invoke.DeleteWorker {W E : Type} (actions : actions.Primitives W E)
    (m : Option docker.actions.MachineActions) (cluster machine : String) (s : Sys W E) :
    Option Error × Sys W E :=
  let r := actions.DeleteWorker m cluster machine s.world
  (r.1, { s with world := r.2, calls := s.calls ++ [Call.DeleteWorker cluster machine] })

/-- Invocation of `actions.GetLoadBalancerHostAndPort`. -/
def invoke.GetLoadBalancerHostAndPort {W E : Type} (actions : actions.Primitives W E)
    (allNodes : List nodes.Node) (s : Sys W E) : (String × Int × Option Error) × Sys W E :=
  let r := actions.GetLoadBalancerHostAndPort allNodes s.world
  (r.1, { s with world := r.2, calls := s.calls ++ [Call.GetLoadBalancerHostAndPort allNodes] })

/-- Invocation of `actions.GetKubeConfig`. -/
def invoke.GetKubeConfig {W E : Type} (actions : actions.Primitives W E)
    (node : Option nodes.Node) (dest hostAddress : String) (hostPort : Int) (s : Sys W E) :
    Option Error × Sys W E :=
  let r := actions.GetKubeConfig node dest hostAddress hostPort s.world
  (r.1, { s with world := r.2,
                 calls := s.calls ++ [Call.GetKubeConfig node dest hostAddress hostPort] })

/-- Go `docker.Node`: a node initializer. -/
structure Node where
  Cluster : String
  Machine : String
  Role : String
  Version : String
  Nodes : List nodes.Node
  MachineActions : Option actions.MachineActions
  Logger : logr.Logger
  deriving DecidableEq, Repr

/-- The body of `if len(n.Nodes) == 1 { ... }` in `Node.Create`: `some err` when
the block leaves `Create` early with `return nil, err`, `none` when control
falls out of the block. -/
def Node.Create.firstControlPlane {W E : Type} (actions : actions.Primitives W E)
    (n : Node) (log : logr.Logger) (cloudConfig : Bytes) (s : Sys W E) :
    Option Error × Sys W E :=
  let s := log.Info "Creating the first control plane node" [] s
  match invoke.CreateControlPlane actions n.MachineActions n.Cluster n.Machine n.Version none
      cloudConfig s with
  | ((_, some err), s) => (errors.Wrap (some err) "failed to create control plane", s)
  | ((cp, none), s) =>
    let dest := actions.KubeConfigPath n.Cluster
    let hostAddress := "127.0.0.1"
    match invoke.GetLoadBalancerHostAndPort actions n.Nodes s with
    | ((_, _, some err), s) => (errors.Wrap (some err) "failed to get load balancer port", s)
    | ((_, hostPort, none), s) =>
      match invoke.GetKubeConfig actions cp dest hostAddress hostPort s with
      | (some err, s) => (errors.Wrap (some err) "failed to get kubeconfig from node", s)
      | (none, s) => (none, s)

/-- Go `func (n *Node) Create(cloudConfig []byte) (*nodes.Node, error)`. -/
def Node.Create {W E : Type} (actions : actions.Primitives W E) (constants : constants.Values)
    (n : Node) (cloudConfig : Bytes) (s : Sys W E) :
    (Option nodes.Node × Option Error) × Sys W E :=
  let log := n.Logger.WithName "node-create"
  if n.Role = constants.ControlPlaneNodeRoleValue then
    match (if n.Nodes.length = 1 then Node.Create.firstControlPlane actions n log cloudConfig s
           else (none, s)) with
    | (some err, s) => ((none, some err), s)
    | (none, s) =>
      let s := log.Info "Adding an additional control plane node" [] s
      invoke.AddControlPlane actions n.MachineActions n.Cluster n.Machine n.Version cloudConfig s
  else if n.Role = constants.WorkerNodeRoleValue then
    let s := log.Info "Adding a worker" [] s
    invoke.AddWorker actions n.MachineActions n.Cluster n.Machine n.Version cloudConfig s
  else
    let s := log.Info "Unknown role" ["role", n.Role] s
    ((none, some (errors.Errorf "Unknown role: %q" [n.Role])), s)

/-- Go `func (n *Node) Delete() error`. -/
def Node.Delete {W E : Type} (actions : actions.Primitives W E) (constants : constants.Values)
    (n : Node) (s : Sys W E) : Option Error × Sys W E :=
  let log := n.Logger.WithName "node-delete"
  if n.Role = constants.ControlPlaneNodeRoleValue then
    invoke.DeleteControlPlane actions n.MachineActions n.Cluster n.Machine s
  else if n.Role = constants.WorkerNodeRoleValue then
    invoke.DeleteWorker actions n.MachineActions n.Cluster n.Machine s
  else
    let s := log.Info "Unknown role" ["role", n.Role] s
    (some (errors.Errorf "Unknown role: %q" [n.Role]), s)

/-! ## Concrete collaborators

A scripted provider over a counter world, used to evaluate the manager on
concrete inputs. -/

/-- The role constants as kind declares them. -/
def demo.kind : constants.Values :=
  ⟨"control-plane", "worker", by decide⟩

/-- The fixed answers of a scripted provider. -/
structure demo.Script where
  createControlPlane : Option nodes.Node × Option Error
  loadBalancer : String × Int × Option Error
  kubeConfig : Option Error
  addControlPlane : Option nodes.Node × Option Error
  addWorker : Option nodes.Node × Option Error
  deleteControlPlane : Option Error
  deleteWorker : Option Error

/-- A provider that answers every primitive from its script and counts, in the
world, how many primitives ran. -/
def demo.provider (k : demo.Script) : actions.Primitives Nat Unit where
  CreateControlPlane := fun _ _ _ _ _ _ w => (k.createControlPlane, w + 1)
  AddControlPlane := fun _ _ _ _ _ w => (k.addControlPlane, w + 1)
  AddWorker := fun _ _ _ _ _ w => (k.addWorker, w + 1)
  DeleteControlPlane := fun _ _ _ w => (k.deleteControlPlane, w + 1)
  DeleteWorker := fun _ _ _ w => (k.deleteWorker, w + 1)
  KubeConfigPath := fun cluster => "kubeconfig-" ++ cluster
  GetLoadBalancerHostAndPort := fun _ w => (k.loadBalancer, w + 1)
  GetKubeConfig := fun _ _ _ _ w => (k.kubeConfig, w + 1)

/-- A script in which every primitive succeeds. -/
def demo.allSucceed : demo.Script where
  createControlPlane := (some ⟨"c1-m1"⟩, none)
  loadBalancer := ("172.17.0.2", 32768, none)
  kubeConfig := none
  addControlPlane := (some ⟨"c1-m1-joined"⟩, none)
  addWorker := (some ⟨"c1-m3"⟩, none)
  deleteControlPlane := none
  deleteWorker := none

/-- A provider failure. -/
def demo.boom : Error := Error.fundamental "docker: daemon unreachable" []

/-- The initial system: a fresh world, nothing invoked, nothing logged. -/
def demo.sys : Sys Nat Unit := ⟨0, [], []⟩

/-- A manager for cluster `c1` with the given machine, role and snapshot. -/
def demo.node (machine role : String) (snapshot : List nodes.Node) : Node where
  Cluster := "c1"
  Machine := machine
  Role := role
  Version := "v1.16.0"
  Nodes := snapshot
  MachineActions := some ⟨⟨["machine-actions"], []⟩⟩
  Logger := ⟨["new-node"], []⟩

/-- The load-balancer placeholder of cluster `c1`. -/
def demo.lb : nodes.Node := ⟨"c1-lb"⟩

/-- A cloud-config payload. -/
def demo.cfg : Bytes := [35, 99, 108, 111, 117, 100]

/-! ## Create on the control-plane role -/

/-- C1: for a control-plane manager with a one-member snapshot, Create returns a nil
error exactly when CreateControlPlane, GetLoadBalancerHostAndPort, GetKubeConfig and
AddControlPlane (each run in the world its predecessor left) all return a nil error;
in that case the trace grows by exactly these four invocations, in this order and
with the stated arguments, and Create returns the node AddControlPlane returned. -/
theorem Create_first_control_plane_success {W E : Type} (actions : actions.Primitives W E)
    (constants : constants.Values) (n : Node) (cloudConfig : Bytes) (s : Sys W E)
    (hrole : n.Role = constants.ControlPlaneNodeRoleValue) (hlen : n.Nodes.length = 1) :
    let r1 := actions.CreateControlPlane n.MachineActions n.Cluster n.Machine n.Version none
      cloudConfig s.world
    let r2 := actions.GetLoadBalancerHostAndPort n.Nodes r1.2
    let r3 := actions.GetKubeConfig r1.1.1 (actions.KubeConfigPath n.Cluster) "127.0.0.1"
      r2.1.2.1 r2.2
    let r4 := actions.AddControlPlane n.MachineActions n.Cluster n.Machine n.Version
      cloudConfig r3.2
    let out := Node.Create actions constants n cloudConfig s
    (out.1.2 = none ↔ (r1.1.2 = none ∧ r2.1.2.2 = none ∧ r3.1 = none ∧ r4.1.2 = none)) ∧
    (out.1.2 = none →
      out.2.calls = s.calls ++
        [Call.CreateControlPlane n.Cluster n.Machine n.Version none cloudConfig,
         Call.GetLoadBalancerHostAndPort n.Nodes,
         Call.GetKubeConfig r1.1.1 (actions.KubeConfigPath n.Cluster) "127.0.0.1" r2.1.2.1,
         Call.AddControlPlane n.Cluster n.Machine n.Version cloudConfig] ∧
      out.1.1 = r4.1.1 ∧ out.2.world = r4.2) := by
  dsimp only
  rcases h1 : actions.CreateControlPlane n.MachineActions n.Cluster n.Machine n.Version none
    cloudConfig s.world with ⟨⟨cp, e1⟩, w1⟩
  rcases h2 : actions.GetLoadBalancerHostAndPort n.Nodes w1 with ⟨⟨host, port, e2⟩, w2⟩
  rcases h3 : actions.GetKubeConfig cp (actions.KubeConfigPath n.Cluster) "127.0.0.1" port w2
    with ⟨e3, w3⟩
  rcases h4 : actions.AddControlPlane n.MachineActions n.Cluster n.Machine n.Version
    cloudConfig w3 with ⟨⟨nd, e4⟩, w4⟩
  cases e1 <;> cases e2 <;> cases e3 <;> cases e4 <;>
    simp [Node.Create, Node.Create.firstControlPlane, invoke.CreateControlPlane,
      invoke.GetLoadBalancerHostAndPort, invoke.GetKubeConfig, invoke.AddControlPlane,
      logr.Logger.Info, errors.Wrap, hrole, hlen, h1, h2, h3, h4]

/-- Create_first_control_plane_success at Scenario A: cluster c1, snapshot {lb},
control-plane role, every primitive succeeding. -/
theorem Create_first_control_plane_success_witness :
    (demo.node "m1" "control-plane" [demo.lb]).Role = demo.kind.ControlPlaneNodeRoleValue ∧
    (demo.node "m1" "control-plane" [demo.lb]).Nodes.length = 1 ∧
    (Node.Create (demo.provider demo.allSucceed) demo.kind
        (demo.node "m1" "control-plane" [demo.lb]) demo.cfg demo.sys).1.2 = none ∧
    (Node.Create (demo.provider demo.allSucceed) demo.kind
        (demo.node "m1" "control-plane" [demo.lb]) demo.cfg demo.sys).2.calls =
      [Call.CreateControlPlane "c1" "m1" "v1.16.0" none demo.cfg,
       Call.GetLoadBalancerHostAndPort [demo.lb],
       Call.GetKubeConfig (some ⟨"c1-m1"⟩) "kubeconfig-c1" "127.0.0.1" 32768,
       Call.AddControlPlane "c1" "m1" "v1.16.0" demo.cfg] ∧
    (Node.Create (demo.provider demo.allSucceed) demo.kind
        (demo.node "m1" "control-plane" [demo.lb]) demo.cfg demo.sys).1.1 =
      some ⟨"c1-m1-joined"⟩ :=
  have h := Create_first_control_plane_success (demo.provider demo.allSucceed) demo.kind
    (demo.node "m1" "control-plane" [demo.lb]) demo.cfg demo.sys (by decide) (by decide)
  have hok := h.1.2 ⟨rfl, rfl, rfl, rfl⟩
  ⟨by decide, by decide, hok, (h.2 hok).1, (h.2 hok).2.1⟩

/-- C2: Create invokes CreateControlPlane exactly when the role is the control-plane
role and the snapshot has exactly one member; with the control-plane role and an
empty snapshot the only invocation Create makes is AddControlPlane. -/
theorem Create_bootstrap_iff {W E : Type} (actions : actions.Primitives W E)
    (constants : constants.Values) (n : Node) (cloudConfig : Bytes) (s : Sys W E) :
    ((s.callsSince (Node.Create actions constants n cloudConfig s).2).any
        Call.isCreateControlPlane = true ↔
      (n.Role = constants.ControlPlaneNodeRoleValue ∧ n.Nodes.length = 1)) ∧
    (n.Role = constants.ControlPlaneNodeRoleValue → n.Nodes = [] →
      s.callsSince (Node.Create actions constants n cloudConfig s).2 =
        [Call.AddControlPlane n.Cluster n.Machine n.Version cloudConfig]) := by
  rcases h1 : actions.CreateControlPlane n.MachineActions n.Cluster n.Machine n.Version none
    cloudConfig s.world with ⟨⟨cp, e1⟩, w1⟩
  rcases h2 : actions.GetLoadBalancerHostAndPort n.Nodes w1 with ⟨⟨host, port, e2⟩, w2⟩
  rcases h3 : actions.GetKubeConfig cp (actions.KubeConfigPath n.Cluster) "127.0.0.1" port w2
    with ⟨e3, w3⟩
  refine ⟨?_, ?_⟩
  · by_cases hrole : n.Role = constants.ControlPlaneNodeRoleValue
    · by_cases hlen : n.Nodes.length = 1
      · cases e1 <;> cases e2 <;> cases e3 <;>
          simp [Sys.callsSince, Node.Create, Node.Create.firstControlPlane,
            invoke.CreateControlPlane, invoke.GetLoadBalancerHostAndPort, invoke.GetKubeConfig,
            invoke.AddControlPlane, logr.Logger.Info, errors.Wrap, hrole, hlen, h1, h2, h3,
            Call.isCreateControlPlane]
      · simp [Sys.callsSince, Node.Create, invoke.AddControlPlane, logr.Logger.Info, hrole,
          hlen, Call.isCreateControlPlane]
    · by_cases hw : n.Role = constants.WorkerNodeRoleValue
      · have hne : constants.WorkerNodeRoleValue ≠ constants.ControlPlaneNodeRoleValue :=
          fun h => constants.distinct h.symm
        simp [Sys.callsSince, Node.Create, invoke.AddWorker, logr.Logger.Info, hw, hne,
          Call.isCreateControlPlane]
      · simp [Sys.callsSince, Node.Create, logr.Logger.Info, hrole, hw]
  · intro hrole hnil
    simp [Sys.callsSince, Node.Create, invoke.AddControlPlane, logr.Logger.Info, hrole, hnil]

/-- Create_bootstrap_iff at a control-plane manager with an empty snapshot. -/
theorem Create_bootstrap_iff_witness :
    (demo.node "m1" "control-plane" []).Role = demo.kind.ControlPlaneNodeRoleValue ∧
    (demo.node "m1" "control-plane" []).Nodes = [] ∧
    demo.sys.callsSince (Node.Create (demo.provider demo.allSucceed) demo.kind
        (demo.node "m1" "control-plane" []) demo.cfg demo.sys).2 =
      [Call.AddControlPlane "c1" "m1" "v1.16.0" demo.cfg] ∧
    (demo.node "m1" "control-plane" [demo.lb]).Role = demo.kind.ControlPlaneNodeRoleValue ∧
    (demo.node "m1" "control-plane" [demo.lb]).Nodes.length = 1 ∧
    (demo.sys.callsSince (Node.Create (demo.provider demo.allSucceed) demo.kind
        (demo.node "m1" "control-plane" [demo.lb]) demo.cfg demo.sys).2).any
      Call.isCreateControlPlane = true :=
  ⟨by decide, by decide,
   (Create_bootstrap_iff (demo.provider demo.allSucceed) demo.kind
      (demo.node "m1" "control-plane" []) demo.cfg demo.sys).2 (by decide) (by decide),
   by decide, by decide,
   (Create_bootstrap_iff (demo.provider demo.allSucceed) demo.kind
      (demo.node "m1" "control-plane" [demo.lb]) demo.cfg demo.sys).1.2 ⟨by decide, by decide⟩⟩

/-- C3: for a control-plane manager whose snapshot has more than one member, Create
makes exactly one invocation, AddControlPlane(Cluster, Machine, Version, cloudConfig),
and returns exactly the (node, error) pair AddControlPlane returned. -/
theorem Create_additional_control_plane {W E : Type} (actions : actions.Primitives W E)
    (constants : constants.Values) (n : Node) (cloudConfig : Bytes) (s : Sys W E)
    (hrole : n.Role = constants.ControlPlaneNodeRoleValue) (hlen : 1 < n.Nodes.length) :
    let r := actions.AddControlPlane n.MachineActions n.Cluster n.Machine n.Version
      cloudConfig s.world
    let out := Node.Create actions constants n cloudConfig s
    out.2.calls = s.calls ++ [Call.AddControlPlane n.Cluster n.Machine n.Version cloudConfig] ∧
    s.callsSince out.2 = [Call.AddControlPlane n.Cluster n.Machine n.Version cloudConfig] ∧
    out.1 = r.1 ∧ out.2.world = r.2 := by
  have hne : n.Nodes.length ≠ 1 := by omega
  simp [Sys.callsSince, Node.Create, invoke.AddControlPlane, logr.Logger.Info, hrole, hne]

/-- Create_additional_control_plane at Scenario B: snapshot {lb, cp1, cp2}. -/
theorem Create_additional_control_plane_witness :
    (demo.node "m2" "control-plane" [demo.lb, ⟨"cp1"⟩, ⟨"cp2"⟩]).Role =
      demo.kind.ControlPlaneNodeRoleValue ∧
    1 < (demo.node "m2" "control-plane" [demo.lb, ⟨"cp1"⟩, ⟨"cp2"⟩]).Nodes.length ∧
    (Node.Create (demo.provider demo.allSucceed) demo.kind
        (demo.node "m2" "control-plane" [demo.lb, ⟨"cp1"⟩, ⟨"cp2"⟩]) demo.cfg demo.sys).2.calls =
      demo.sys.calls ++ [Call.AddControlPlane "c1" "m2" "v1.16.0" demo.cfg] :=
  ⟨by decide, by decide,
   (Create_additional_control_plane (demo.provider demo.allSucceed) demo.kind
      (demo.node "m2" "control-plane" [demo.lb, ⟨"cp1"⟩, ⟨"cp2"⟩]) demo.cfg demo.sys
      (by decide) (by decide)).1⟩

/-! ## Create on the worker role -/

/-- C4: for a worker manager, whatever its snapshot, Create makes exactly one
invocation, AddWorker(Cluster, Machine, Version, cloudConfig), and returns exactly what
AddWorker returned; replacing the snapshot by any other changes neither the
invocations nor the result. -/
theorem Create_worker {W E : Type} (actions : actions.Primitives W E)
    (constants : constants.Values) (n : Node) (cloudConfig : Bytes) (s : Sys W E)
    (hrole : n.Role = constants.WorkerNodeRoleValue) :
    let r := actions.AddWorker n.MachineActions n.Cluster n.Machine n.Version cloudConfig
      s.world
    let out := Node.Create actions constants n cloudConfig s
    out.2.calls = s.calls ++ [Call.AddWorker n.Cluster n.Machine n.Version cloudConfig] ∧
    s.callsSince out.2 = [Call.AddWorker n.Cluster n.Machine n.Version cloudConfig] ∧
    out.1 = r.1 ∧ out.2.world = r.2 ∧
    ∀ snapshot : List nodes.Node,
      Node.Create actions constants { n with Nodes := snapshot } cloudConfig s = out := by
  have hne : constants.WorkerNodeRoleValue ≠ constants.ControlPlaneNodeRoleValue :=
    fun h => constants.distinct h.symm
  simp [Sys.callsSince, Node.Create, invoke.AddWorker, logr.Logger.Info, hrole, hne]

/-- Create_worker at Scenario C: worker role, snapshot {lb, cp1}, compared with the
empty snapshot. -/
theorem Create_worker_witness :
    (demo.node "m3" "worker" [demo.lb, ⟨"cp1"⟩]).Role = demo.kind.WorkerNodeRoleValue ∧
    (Node.Create (demo.provider demo.allSucceed) demo.kind
        (demo.node "m3" "worker" [demo.lb, ⟨"cp1"⟩]) demo.cfg demo.sys).2.calls =
      demo.sys.calls ++ [Call.AddWorker "c1" "m3" "v1.16.0" demo.cfg] ∧
    Node.Create (demo.provider demo.allSucceed) demo.kind
        { demo.node "m3" "worker" [demo.lb, ⟨"cp1"⟩] with Nodes := [] } demo.cfg demo.sys =
      Node.Create (demo.provider demo.allSucceed) demo.kind
        (demo.node "m3" "worker" [demo.lb, ⟨"cp1"⟩]) demo.cfg demo.sys :=
  have h := Create_worker (demo.provider demo.allSucceed) demo.kind
    (demo.node "m3" "worker" [demo.lb, ⟨"cp1"⟩]) demo.cfg demo.sys (by decide)
  ⟨by decide, h.1, h.2.2.2.2 []⟩

/-! ## Unknown roles -/

/-- C5: for a manager whose role is neither role constant, Create returns a nil node
with the error Errorf("Unknown role: %q", Role), Delete returns that same error, and
neither changes the trace of invocations nor the provider world. -/
theorem unknown_role {W E : Type} (actions : actions.Primitives W E)
    (constants : constants.Values) (n : Node) (cloudConfig : Bytes) (s : Sys W E)
    (hcp : n.Role ≠ constants.ControlPlaneNodeRoleValue)
    (hw : n.Role ≠ constants.WorkerNodeRoleValue) :
    (Node.Create actions constants n cloudConfig s).1 =
      (none, some (errors.Errorf "Unknown role: %q" [n.Role])) ∧
    (Node.Create actions constants n cloudConfig s).2.calls = s.calls ∧
    s.callsSince (Node.Create actions constants n cloudConfig s).2 = [] ∧
    (Node.Create actions constants n cloudConfig s).2.world = s.world ∧
    (Node.Delete actions constants n s).1 =
      some (errors.Errorf "Unknown role: %q" [n.Role]) ∧
    (Node.Delete actions constants n s).2.calls = s.calls ∧
    s.callsSince (Node.Delete actions constants n s).2 = [] ∧
    (Node.Delete actions constants n s).2.world = s.world := by
  simp [Sys.callsSince, Node.Create, Node.Delete, logr.Logger.Info, hcp, hw]

/-- An instance of unknown_role: the empty role, under kind's role constants. -/
theorem unknown_role_witness :
    (demo.node "m4" "" [demo.lb]).Role ≠ demo.kind.ControlPlaneNodeRoleValue ∧
    (demo.node "m4" "" [demo.lb]).Role ≠ demo.kind.WorkerNodeRoleValue ∧
    (Node.Create (demo.provider demo.allSucceed) demo.kind (demo.node "m4" "" [demo.lb])
        demo.cfg demo.sys).1 = (none, some (errors.Errorf "Unknown role: %q" [""])) ∧
    (Node.Delete (demo.provider demo.allSucceed) demo.kind (demo.node "m4" "" [demo.lb])
        demo.sys).1 = some (errors.Errorf "Unknown role: %q" [""]) :=
  have h := unknown_role (demo.provider demo.allSucceed) demo.kind
    (demo.node "m4" "" [demo.lb]) demo.cfg demo.sys (by decide) (by decide)
  ⟨by decide, by decide, h.1, h.2.2.2.2.1⟩

/-! ## Failures on the first-control-plane path -/

/-- C6: for a control-plane manager with a one-member snapshot, when CreateControlPlane
returns a nil error and GetLoadBalancerHostAndPort returns error e, Create returns a
nil node with e wrapped by "failed to get load balancer port", and the invocations
made are CreateControlPlane and GetLoadBalancerHostAndPort only, so neither
GetKubeConfig nor AddControlPlane is invoked. -/
theorem Create_load_balancer_failure {W E : Type} (actions : actions.Primitives W E)
    (constants : constants.Values) (n : Node) (cloudConfig : Bytes) (s : Sys W E) (e : Error)
    (hrole : n.Role = constants.ControlPlaneNodeRoleValue) (hlen : n.Nodes.length = 1)
    (h1 : (actions.CreateControlPlane n.MachineActions n.Cluster n.Machine n.Version none
      cloudConfig s.world).1.2 = none)
    (h2 : (actions.GetLoadBalancerHostAndPort n.Nodes
      (actions.CreateControlPlane n.MachineActions n.Cluster n.Machine n.Version none
        cloudConfig s.world).2).1.2.2 = some e) :
    let out := Node.Create actions constants n cloudConfig s
    out.1 = (none, some (Error.withMessage e "failed to get load balancer port")) ∧
    out.2.calls = s.calls ++
      [Call.CreateControlPlane n.Cluster n.Machine n.Version none cloudConfig,
       Call.GetLoadBalancerHostAndPort n.Nodes] ∧
    (s.callsSince out.2).any Call.isGetKubeConfig = false ∧
    (s.callsSince out.2).any Call.isAddControlPlane = false := by
  dsimp only
  rcases h1r : actions.CreateControlPlane n.MachineActions n.Cluster n.Machine n.Version none
    cloudConfig s.world with ⟨⟨cp, e1⟩, w1⟩
  rw [h1r] at h1 h2
  rcases h2r : actions.GetLoadBalancerHostAndPort n.Nodes w1 with ⟨⟨host, port, e2⟩, w2⟩
  simp only at h1 h2
  rw [h2r] at h2
  simp only at h2
  subst h1 h2
  simp [Sys.callsSince, Node.Create, Node.Create.firstControlPlane, invoke.CreateControlPlane,
    invoke.GetLoadBalancerHostAndPort, logr.Logger.Info, errors.Wrap, hrole, hlen, h1r, h2r,
    Call.isGetKubeConfig, Call.isAddControlPlane]

/-- Create_load_balancer_failure at a provider whose load-balancer lookup fails. -/
theorem Create_load_balancer_failure_witness :
    (demo.node "m1" "control-plane" [demo.lb]).Role = demo.kind.ControlPlaneNodeRoleValue ∧
    (demo.node "m1" "control-plane" [demo.lb]).Nodes.length = 1 ∧
    ((demo.provider { demo.allSucceed with loadBalancer := ("", 0, some demo.boom) }
      ).CreateControlPlane (some ⟨⟨["machine-actions"], []⟩⟩) "c1" "m1" "v1.16.0" none demo.cfg
      0).1.2 = none ∧
    ((demo.provider { demo.allSucceed with loadBalancer := ("", 0, some demo.boom) }
      ).GetLoadBalancerHostAndPort [demo.lb] 1).1.2.2 = some demo.boom ∧
    (Node.Create (demo.provider { demo.allSucceed with loadBalancer := ("", 0, some demo.boom) })
        demo.kind (demo.node "m1" "control-plane" [demo.lb]) demo.cfg demo.sys).1 =
      (none, some (Error.withMessage demo.boom "failed to get load balancer port")) :=
  ⟨by decide, by decide, rfl, rfl,
   (Create_load_balancer_failure
      (demo.provider { demo.allSucceed with loadBalancer := ("", 0, some demo.boom) })
      demo.kind (demo.node "m1" "control-plane" [demo.lb]) demo.cfg demo.sys demo.boom
      (by decide) (by decide) rfl rfl).1⟩

/-- C7: for a control-plane manager with a one-member snapshot, when CreateControlPlane
and GetLoadBalancerHostAndPort return a nil error and GetKubeConfig returns error e,
Create returns a nil node with e wrapped by "failed to get kubeconfig from node", and
the invocations made are CreateControlPlane, GetLoadBalancerHostAndPort and
GetKubeConfig only, so AddControlPlane is not invoked. -/
theorem Create_kubeconfig_failure {W E : Type} (actions : actions.Primitives W E)
    (constants : constants.Values) (n : Node) (cloudConfig : Bytes) (s : Sys W E) (e : Error)
    (hrole : n.Role = constants.ControlPlaneNodeRoleValue) (hlen : n.Nodes.length = 1)
    (h1 : (actions.CreateControlPlane n.MachineActions n.Cluster n.Machine n.Version none
      cloudConfig s.world).1.2 = none)
    (h2 : (actions.GetLoadBalancerHostAndPort n.Nodes
      (actions.CreateControlPlane n.MachineActions n.Cluster n.Machine n.Version none
        cloudConfig s.world).2).1.2.2 = none)
    (h3 : (actions.GetKubeConfig
      (actions.CreateControlPlane n.MachineActions n.Cluster n.Machine n.Version none
        cloudConfig s.world).1.1
      (actions.KubeConfigPath n.Cluster) "127.0.0.1"
      (actions.GetLoadBalancerHostAndPort n.Nodes
        (actions.CreateControlPlane n.MachineActions n.Cluster n.Machine n.Version none
          cloudConfig s.world).2).1.2.1
      (actions.GetLoadBalancerHostAndPort n.Nodes
        (actions.CreateControlPlane n.MachineActions n.Cluster n.Machine n.Version none
          cloudConfig s.world).2).2).1 = some e) :
    let r1 := actions.CreateControlPlane n.MachineActions n.Cluster n.Machine n.Version none
      cloudConfig s.world
    let r2 := actions.GetLoadBalancerHostAndPort n.Nodes r1.2
    let out := Node.Create actions constants n cloudConfig s
    out.1 = (none, some (Error.withMessage e "failed to get kubeconfig from node")) ∧
    out.2.calls = s.calls ++
      [Call.CreateControlPlane n.Cluster n.Machine n.Version none cloudConfig,
       Call.GetLoadBalancerHostAndPort n.Nodes,
       Call.GetKubeConfig r1.1.1 (actions.KubeConfigPath n.Cluster) "127.0.0.1" r2.1.2.1] ∧
    (s.callsSince out.2).any Call.isAddControlPlane = false := by
  dsimp only
  rcases h1r : actions.CreateControlPlane n.MachineActions n.Cluster n.Machine n.Version none
    cloudConfig s.world with ⟨⟨cp, e1⟩, w1⟩
  rw [h1r] at h1 h2 h3
  rcases h2r : actions.GetLoadBalancerHostAndPort n.Nodes w1 with ⟨⟨host, port, e2⟩, w2⟩
  simp only at h1 h2 h3
  rw [h2r] at h2 h3
  rcases h3r : actions.GetKubeConfig cp (actions.KubeConfigPath n.Cluster) "127.0.0.1" port w2
    with ⟨e3, w3⟩
  simp only at h2 h3
  rw [h3r] at h3
  simp only at h3
  subst h1 h2 h3
  simp [Sys.callsSince, Node.Create, Node.Create.firstControlPlane, invoke.CreateControlPlane,
    invoke.GetLoadBalancerHostAndPort, invoke.GetKubeConfig, logr.Logger.Info, errors.Wrap,
    hrole, hlen, h1r, h2r, h3r, Call.isAddControlPlane]

/-- Create_kubeconfig_failure at a provider whose kubeconfig retrieval fails. -/
theorem Create_kubeconfig_failure_witness :
    (demo.node "m1" "control-plane" [demo.lb]).Role = demo.kind.ControlPlaneNodeRoleValue ∧
    (demo.node "m1" "control-plane" [demo.lb]).Nodes.length = 1 ∧
    ((demo.provider { demo.allSucceed with kubeConfig := some demo.boom }
      ).CreateControlPlane (some ⟨⟨["machine-actions"], []⟩⟩) "c1" "m1" "v1.16.0" none demo.cfg
      0).1.2 = none ∧
    ((demo.provider { demo.allSucceed with kubeConfig := some demo.boom }
      ).GetLoadBalancerHostAndPort [demo.lb] 1).1.2.2 = none ∧
    ((demo.provider { demo.allSucceed with kubeConfig := some demo.boom }
      ).GetKubeConfig (some ⟨"c1-m1"⟩) "kubeconfig-c1" "127.0.0.1" 32768 2).1 =
      some demo.boom ∧
    (Node.Create (demo.provider { demo.allSucceed with kubeConfig := some demo.boom })
        demo.kind (demo.node "m1" "control-plane" [demo.lb]) demo.cfg demo.sys).1 =
      (none, some (Error.withMessage demo.boom "failed to get kubeconfig from node")) :=
  ⟨by decide, by decide, rfl, rfl, rfl,
   (Create_kubeconfig_failure
      (demo.provider { demo.allSucceed with kubeConfig := some demo.boom })
      demo.kind (demo.node "m1" "control-plane" [demo.lb]) demo.cfg demo.sys demo.boom
      (by decide) (by decide) rfl rfl rfl).1⟩

/-! ## Delete -/

/-- C8: with the control-plane role Delete makes exactly one invocation,
DeleteControlPlane(Cluster, Machine), and returns its result; with the worker role it
makes exactly one invocation, DeleteWorker(Cluster, Machine), and returns its result;
whatever the role, replacing the snapshot by any other leaves Delete unchanged. -/
theorem Delete_by_role {W E : Type} (actions : actions.Primitives W E)
    (constants : constants.Values) (n : Node) (s : Sys W E) :
    (n.Role = constants.ControlPlaneNodeRoleValue →
      (Node.Delete actions constants n s).1 =
        (actions.DeleteControlPlane n.MachineActions n.Cluster n.Machine s.world).1 ∧
      (Node.Delete actions constants n s).2.world =
        (actions.DeleteControlPlane n.MachineActions n.Cluster n.Machine s.world).2 ∧
      (Node.Delete actions constants n s).2.calls =
        s.calls ++ [Call.DeleteControlPlane n.Cluster n.Machine]) ∧
    (n.Role = constants.WorkerNodeRoleValue →
      (Node.Delete actions constants n s).1 =
        (actions.DeleteWorker n.MachineActions n.Cluster n.Machine s.world).1 ∧
      (Node.Delete actions constants n s).2.world =
        (actions.DeleteWorker n.MachineActions n.Cluster n.Machine s.world).2 ∧
      (Node.Delete actions constants n s).2.calls =
        s.calls ++ [Call.DeleteWorker n.Cluster n.Machine]) ∧
    (∀ snapshot : List nodes.Node,
      Node.Delete actions constants { n with Nodes := snapshot } s =
        Node.Delete actions constants n s) := by
  have hne : constants.WorkerNodeRoleValue ≠ constants.ControlPlaneNodeRoleValue :=
    fun h => constants.distinct h.symm
  refine ⟨?_, ?_, ?_⟩
  · intro hrole
    simp [Node.Delete, invoke.DeleteControlPlane, hrole]
  · intro hrole
    simp [Node.Delete, invoke.DeleteWorker, hrole, hne]
  · intro snapshot
    rfl

/-- Delete_by_role at a control-plane manager and at a worker manager of cluster c1. -/
theorem Delete_by_role_witness :
    (demo.node "m1" "control-plane" [demo.lb]).Role = demo.kind.ControlPlaneNodeRoleValue ∧
    (Node.Delete (demo.provider demo.allSucceed) demo.kind
        (demo.node "m1" "control-plane" [demo.lb]) demo.sys).2.calls =
      demo.sys.calls ++ [Call.DeleteControlPlane "c1" "m1"] ∧
    (demo.node "m3" "worker" []).Role = demo.kind.WorkerNodeRoleValue ∧
    (Node.Delete (demo.provider demo.allSucceed) demo.kind
        (demo.node "m3" "worker" []) demo.sys).2.calls =
      demo.sys.calls ++ [Call.DeleteWorker "c1" "m3"] :=
  ⟨by decide,
   ((Delete_by_role (demo.provider demo.allSucceed) demo.kind
      (demo.node "m1" "control-plane" [demo.lb]) demo.sys).1 (by decide)).2.2,
   by decide,
   ((Delete_by_role (demo.provider demo.allSucceed) demo.kind
      (demo.node "m3" "worker" []) demo.sys).2.1 (by decide)).2.2⟩

/-! ## What Create returns from the add primitives -/

/-- C9, as stated, fails: with a worker manager and an AddWorker that returns a nil
node together with a nil error, Create returns a nil error and a nil node. -/
theorem Create_nil_node_with_nil_error :
    (Node.Create (demo.provider { demo.allSucceed with addWorker := (none, none) }) demo.kind
        (demo.node "m3" "worker" [demo.lb]) demo.cfg demo.sys).1.2 = none ∧
    (Node.Create (demo.provider { demo.allSucceed with addWorker := (none, none) }) demo.kind
        (demo.node "m3" "worker" [demo.lb]) demo.cfg demo.sys).1.1 = none := by
  decide

/-- C9, amended: whenever Create returns a nil error, the role is the control-plane
or the worker role value and the (node, error) pair Create returns is exactly the pair
returned by the last invocation it made, with no nil check of its own: for the
control-plane role with a one-member snapshot, AddControlPlane(Cluster, Machine,
Version, cloudConfig) run after the three first-control-plane invocations, all of which
returned a nil error; for the control-plane role with any other snapshot,
AddControlPlane run as the only invocation; for the worker role, AddWorker(Cluster,
Machine, Version, cloudConfig) run as the only invocation. So the node is non-nil
exactly when that primitive returned a non-nil node. -/
theorem Create_success_node {W E : Type} (actions : actions.Primitives W E)
    (constants : constants.Values) (n : Node) (cloudConfig : Bytes) (s : Sys W E)
    (hok : (Node.Create actions constants n cloudConfig s).1.2 = none) :
    let r1 := actions.CreateControlPlane n.MachineActions n.Cluster n.Machine n.Version none
      cloudConfig s.world
    let r2 := actions.GetLoadBalancerHostAndPort n.Nodes r1.2
    let r3 := actions.GetKubeConfig r1.1.1 (actions.KubeConfigPath n.Cluster) "127.0.0.1"
      r2.1.2.1 r2.2
    let first := actions.AddControlPlane n.MachineActions n.Cluster n.Machine n.Version
      cloudConfig r3.2
    let further := actions.AddControlPlane n.MachineActions n.Cluster n.Machine n.Version
      cloudConfig s.world
    let worker := actions.AddWorker n.MachineActions n.Cluster n.Machine n.Version
      cloudConfig s.world
    let out := Node.Create actions constants n cloudConfig s
    (n.Role = constants.ControlPlaneNodeRoleValue ∨ n.Role = constants.WorkerNodeRoleValue) ∧
    (n.Role = constants.ControlPlaneNodeRoleValue → n.Nodes.length = 1 →
      r1.1.2 = none ∧ r2.1.2.2 = none ∧ r3.1 = none ∧
      out.1 = first.1 ∧ out.2.world = first.2 ∧
      (out.1.1 ≠ none ↔ first.1.1 ≠ none) ∧
      out.2.calls = s.calls ++
        [Call.CreateControlPlane n.Cluster n.Machine n.Version none cloudConfig,
         Call.GetLoadBalancerHostAndPort n.Nodes,
         Call.GetKubeConfig r1.1.1 (actions.KubeConfigPath n.Cluster) "127.0.0.1" r2.1.2.1,
         Call.AddControlPlane n.Cluster n.Machine n.Version cloudConfig]) ∧
    (n.Role = constants.ControlPlaneNodeRoleValue → n.Nodes.length ≠ 1 →
      out.1 = further.1 ∧ out.2.world = further.2 ∧
      (out.1.1 ≠ none ↔ further.1.1 ≠ none) ∧
      out.2.calls = s.calls ++
        [Call.AddControlPlane n.Cluster n.Machine n.Version cloudConfig]) ∧
    (n.Role = constants.WorkerNodeRoleValue →
      out.1 = worker.1 ∧ out.2.world = worker.2 ∧
      (out.1.1 ≠ none ↔ worker.1.1 ≠ none) ∧
      out.2.calls = s.calls ++ [Call.AddWorker n.Cluster n.Machine n.Version cloudConfig]) := by
  dsimp only
  have hne : constants.WorkerNodeRoleValue ≠ constants.ControlPlaneNodeRoleValue :=
    fun h => constants.distinct h.symm
  refine ⟨?_, ?_, ?_, ?_⟩
  · by_cases hrole : n.Role = constants.ControlPlaneNodeRoleValue
    · exact Or.inl hrole
    · by_cases hw : n.Role = constants.WorkerNodeRoleValue
      · exact Or.inr hw
      · simp [Node.Create, logr.Logger.Info, hrole, hw] at hok
  · intro hrole hlen
    rcases h1 : actions.CreateControlPlane n.MachineActions n.Cluster n.Machine n.Version
      none cloudConfig s.world with ⟨⟨cp, e1⟩, w1⟩
    rcases h2 : actions.GetLoadBalancerHostAndPort n.Nodes w1 with ⟨⟨host, port, e2⟩, w2⟩
    rcases h3 : actions.GetKubeConfig cp (actions.KubeConfigPath n.Cluster) "127.0.0.1"
      port w2 with ⟨e3, w3⟩
    cases e1 <;> cases e2 <;> cases e3 <;>
      simp [Node.Create, Node.Create.firstControlPlane, invoke.CreateControlPlane,
        invoke.GetLoadBalancerHostAndPort, invoke.GetKubeConfig, invoke.AddControlPlane,
        logr.Logger.Info, errors.Wrap, hrole, hlen, h1, h2, h3] at hok ⊢
  · intro hrole hlen
    simp [Node.Create, invoke.AddControlPlane, logr.Logger.Info, hrole, hlen]
  · intro hrole
    simp [Node.Create, invoke.AddWorker, logr.Logger.Info, hrole, hne]

/-- Create_success_node at three managers of cluster c1: a worker whose AddWorker
returns a nil node with a nil error (the pair is passed through), a worker whose
AddWorker returns a node, and the first control plane with every primitive
succeeding. -/
theorem Create_success_node_witness :
    ((Node.Create (demo.provider { demo.allSucceed with addWorker := (none, none) })
        demo.kind (demo.node "m5" "worker" []) demo.cfg demo.sys).1.2 = none ∧
     (Node.Create (demo.provider { demo.allSucceed with addWorker := (none, none) })
        demo.kind (demo.node "m5" "worker" []) demo.cfg demo.sys).1 =
       ((demo.provider { demo.allSucceed with addWorker := (none, none) }).AddWorker
         (some ⟨⟨["machine-actions"], []⟩⟩) "c1" "m5" "v1.16.0" demo.cfg 0).1) ∧
    ((Node.Create (demo.provider demo.allSucceed) demo.kind
        (demo.node "m3" "worker" [demo.lb, ⟨"cp1"⟩]) demo.cfg demo.sys).1.2 = none ∧
     (Node.Create (demo.provider demo.allSucceed) demo.kind
        (demo.node "m3" "worker" [demo.lb, ⟨"cp1"⟩]) demo.cfg demo.sys).1.1 ≠ none) ∧
    ((Node.Create (demo.provider demo.allSucceed) demo.kind
        (demo.node "m1" "control-plane" [demo.lb]) demo.cfg demo.sys).1.2 = none ∧
     (Node.Create (demo.provider demo.allSucceed) demo.kind
        (demo.node "m1" "control-plane" [demo.lb]) demo.cfg demo.sys).1 =
       ((demo.provider demo.allSucceed).AddControlPlane
         (some ⟨⟨["machine-actions"], []⟩⟩) "c1" "m1" "v1.16.0" demo.cfg 3).1) :=
  ⟨⟨by decide,
    ((Create_success_node (demo.provider { demo.allSucceed with addWorker := (none, none) })
      demo.kind (demo.node "m5" "worker" []) demo.cfg demo.sys (by decide)).2.2.2
      (by decide)).1⟩,
   ⟨by decide,
    ((Create_success_node (demo.provider demo.allSucceed) demo.kind
      (demo.node "m3" "worker" [demo.lb, ⟨"cp1"⟩]) demo.cfg demo.sys (by decide)).2.2.2
      (by decide)).2.2.1.2 (by decide)⟩,
   ⟨by decide,
    ((Create_success_node (demo.provider demo.allSucceed) demo.kind
      (demo.node "m1" "control-plane" [demo.lb]) demo.cfg demo.sys (by decide)).2.1
      (by decide) (by decide)).2.2.2.1⟩⟩

/-! ## Which failures Create wraps -/

/-- C10, as stated, fails: with a worker manager and an AddWorker that fails with an
error, Create returns that very error, not the error wrapped by any message. -/
theorem Create_add_worker_error_unwrapped :
    (Node.Create (demo.provider { demo.allSucceed with addWorker := (none, some demo.boom) })
        demo.kind (demo.node "m3" "worker" [demo.lb]) demo.cfg demo.sys).1.2 =
      some demo.boom ∧
    ∀ msg : String,
      (Node.Create (demo.provider { demo.allSucceed with addWorker := (none, some demo.boom) })
          demo.kind (demo.node "m3" "worker" [demo.lb]) demo.cfg demo.sys).1.2 ≠
        some (Error.withMessage demo.boom msg) := by
  refine ⟨by decide, ?_⟩
  intro msg h
  have h2 : (some demo.boom : Option Error) = some (Error.withMessage demo.boom msg) := h
  simp [demo.boom] at h2

/-- C10, amended: on the first-control-plane path a failure e of CreateControlPlane,
GetLoadBalancerHostAndPort or GetKubeConfig makes Create return a nil node with e
wrapped by the message of that stage ("failed to create control plane", "failed to get
load balancer port", "failed to get kubeconfig from node"); a failure e of
AddControlPlane (after the first-control-plane path or without it) or of AddWorker
makes Create return e itself, unwrapped. -/
theorem Create_failure_by_stage {W E : Type} (actions : actions.Primitives W E)
    (constants : constants.Values) (n : Node) (cloudConfig : Bytes) (s : Sys W E) (e : Error) :
    let r1 := actions.CreateControlPlane n.MachineActions n.Cluster n.Machine n.Version none
      cloudConfig s.world
    let r2 := actions.GetLoadBalancerHostAndPort n.Nodes r1.2
    let r3 := actions.GetKubeConfig r1.1.1 (actions.KubeConfigPath n.Cluster) "127.0.0.1"
      r2.1.2.1 r2.2
    let out := Node.Create actions constants n cloudConfig s
    (n.Role = constants.ControlPlaneNodeRoleValue → n.Nodes.length = 1 → r1.1.2 = some e →
      out.1 = (none, some (Error.withMessage e "failed to create control plane"))) ∧
    (n.Role = constants.ControlPlaneNodeRoleValue → n.Nodes.length = 1 → r1.1.2 = none →
      r2.1.2.2 = some e →
      out.1 = (none, some (Error.withMessage e "failed to get load balancer port"))) ∧
    (n.Role = constants.ControlPlaneNodeRoleValue → n.Nodes.length = 1 → r1.1.2 = none →
      r2.1.2.2 = none → r3.1 = some e →
      out.1 = (none, some (Error.withMessage e "failed to get kubeconfig from node"))) ∧
    (n.Role = constants.ControlPlaneNodeRoleValue → n.Nodes.length = 1 → r1.1.2 = none →
      r2.1.2.2 = none → r3.1 = none →
      (actions.AddControlPlane n.MachineActions n.Cluster n.Machine n.Version cloudConfig
        r3.2).1.2 = some e →
      out.1.2 = some e) ∧
    (n.Role = constants.ControlPlaneNodeRoleValue → n.Nodes.length ≠ 1 →
      (actions.AddControlPlane n.MachineActions n.Cluster n.Machine n.Version cloudConfig
        s.world).1.2 = some e →
      out.1.2 = some e) ∧
    (n.Role = constants.WorkerNodeRoleValue →
      (actions.AddWorker n.MachineActions n.Cluster n.Machine n.Version cloudConfig
        s.world).1.2 = some e →
      out.1.2 = some e) := by
  dsimp only
  have hne : constants.WorkerNodeRoleValue ≠ constants.ControlPlaneNodeRoleValue :=
    fun h => constants.distinct h.symm
  rcases h1 : actions.CreateControlPlane n.MachineActions n.Cluster n.Machine n.Version none
    cloudConfig s.world with ⟨⟨cp, e1⟩, w1⟩
  rcases h2 : actions.GetLoadBalancerHostAndPort n.Nodes w1 with ⟨⟨host, port, e2⟩, w2⟩
  rcases h3 : actions.GetKubeConfig cp (actions.KubeConfigPath n.Cluster) "127.0.0.1" port w2
    with ⟨e3, w3⟩
  refine ⟨?_, ?_, ?_, ?_, ?_, ?_⟩
  · intro hrole hlen he1
    simp only at he1
    subst he1
    simp [Node.Create, Node.Create.firstControlPlane, invoke.CreateControlPlane,
      logr.Logger.Info, errors.Wrap, hrole, hlen, h1]
  · intro hrole hlen he1 he2
    simp only at he1 he2
    subst he1 he2
    simp [Node.Create, Node.Create.firstControlPlane, invoke.CreateControlPlane,
      invoke.GetLoadBalancerHostAndPort, logr.Logger.Info, errors.Wrap, hrole, hlen, h1, h2]
  · intro hrole hlen he1 he2 he3
    simp only at he1 he2 he3
    subst he1 he2 he3
    simp [Node.Create, Node.Create.firstControlPlane, invoke.CreateControlPlane,
      invoke.GetLoadBalancerHostAndPort, invoke.GetKubeConfig, logr.Logger.Info, errors.Wrap,
      hrole, hlen, h1, h2, h3]
  · intro hrole hlen he1 he2 he3 he4
    simp only at he1 he2 he3 he4
    subst he1 he2 he3
    simp [Node.Create, Node.Create.firstControlPlane, invoke.CreateControlPlane,
      invoke.GetLoadBalancerHostAndPort, invoke.GetKubeConfig, invoke.AddControlPlane,
      logr.Logger.Info, errors.Wrap, hrole, hlen, h1, h2, h3, he4]
  · intro hrole hlen he4
    simp [Node.Create, invoke.AddControlPlane, logr.Logger.Info, hrole, hlen, he4]
  · intro hrole he
    simp [Node.Create, invoke.AddWorker, logr.Logger.Info, hrole, hne, he]

/-- Create_failure_by_stage at a provider whose CreateControlPlane fails (wrapped) and
at a provider whose AddControlPlane fails after a successful first-control-plane path
(unwrapped). -/
theorem Create_failure_by_stage_witness :
    (Node.Create
        (demo.provider { demo.allSucceed with createControlPlane := (none, some demo.boom) })
        demo.kind (demo.node "m1" "control-plane" [demo.lb]) demo.cfg demo.sys).1 =
      (none, some (Error.withMessage demo.boom "failed to create control plane")) ∧
    (Node.Create
        (demo.provider { demo.allSucceed with loadBalancer := ("", 0, some demo.boom) })
        demo.kind (demo.node "m1" "control-plane" [demo.lb]) demo.cfg demo.sys).1 =
      (none, some (Error.withMessage demo.boom "failed to get load balancer port")) ∧
    (Node.Create
        (demo.provider { demo.allSucceed with kubeConfig := some demo.boom })
        demo.kind (demo.node "m1" "control-plane" [demo.lb]) demo.cfg demo.sys).1 =
      (none, some (Error.withMessage demo.boom "failed to get kubeconfig from node")) ∧
    (Node.Create
        (demo.provider { demo.allSucceed with addControlPlane := (none, some demo.boom) })
        demo.kind (demo.node "m1" "control-plane" [demo.lb]) demo.cfg demo.sys).1.2 =
      some demo.boom ∧
    (Node.Create
        (demo.provider { demo.allSucceed with addControlPlane := (none, some demo.boom) })
        demo.kind (demo.node "m2" "control-plane" [demo.lb, ⟨"cp1"⟩]) demo.cfg demo.sys).1.2 =
      some demo.boom ∧
    (Node.Create
        (demo.provider { demo.allSucceed with addWorker := (none, some demo.boom) })
        demo.kind (demo.node "m3" "worker" [demo.lb]) demo.cfg demo.sys).1.2 =
      some demo.boom :=
  ⟨(Create_failure_by_stage
      (demo.provider { demo.allSucceed with createControlPlane := (none, some demo.boom) })
      demo.kind (demo.node "m1" "control-plane" [demo.lb]) demo.cfg demo.sys demo.boom).1
      (by decide) (by decide) rfl,
   (Create_failure_by_stage
      (demo.provider { demo.allSucceed with loadBalancer := ("", 0, some demo.boom) })
      demo.kind (demo.node "m1" "control-plane" [demo.lb]) demo.cfg demo.sys demo.boom).2.1
      (by decide) (by decide) rfl rfl,
   (Create_failure_by_stage
      (demo.provider { demo.allSucceed with kubeConfig := some demo.boom })
      demo.kind (demo.node "m1" "control-plane" [demo.lb]) demo.cfg demo.sys demo.boom).2.2.1
      (by decide) (by decide) rfl rfl rfl,
   (Create_failure_by_stage
      (demo.provider { demo.allSucceed with addControlPlane := (none, some demo.boom) })
      demo.kind (demo.node "m1" "control-plane" [demo.lb]) demo.cfg demo.sys demo.boom).2.2.2.1
      (by decide) (by decide) rfl rfl rfl rfl,
   (Create_failure_by_stage
      (demo.provider { demo.allSucceed with addControlPlane := (none, some demo.boom) })
      demo.kind (demo.node "m2" "control-plane" [demo.lb, ⟨"cp1"⟩]) demo.cfg demo.sys
      demo.boom).2.2.2.2.1 (by decide) (by decide) rfl,
   (Create_failure_by_stage
      (demo.provider { demo.allSucceed with addWorker := (none, some demo.boom) })
      demo.kind (demo.node "m3" "worker" [demo.lb]) demo.cfg demo.sys demo.boom).2.2.2.2.2
      (by decide) rfl⟩

end docker
